import Mathlib

/-!
Shallow embedding of gopassivedns (src/main.go): a passive DNS monitor that
shards captured packets across 8 workers by flow hash, extracts DNS messages
from UDP/TCP payloads, correlates queries with responses in a per-worker
conntable keyed by the 16-bit transaction ID, garbage-collects stale entries,
and renders matched pairs as structured log records.

Modelling conventions:
- `time.Time` instants and `time.Duration` values are integers (`Int`);
  `t.Add(d)` is `t + d` and `a.Before(b)` is `a < b`.
- Go byte slices that the program only ever converts with `string(...)` are
  carried as `String` (the conversion is the identity in the model); the raw
  TCP payload, which the program slices by index, is `List Nat`.
- `net.IP` values are carried as their textual rendering (`net.IP.String()`),
  and the `nil` IP of a non-IP packet is `Option.none`.
- Go runtime panics (out-of-range slice/index, failed type assertion) are
  explicit: fallible code returns `Except GoPanic _`.
- The Go map `map[uint16]dnsMapEntry` is an association list with
  overwrite-on-insert, matching Go map semantics key for key.
-/

/-- Runtime panics of the Go program that the embedding makes explicit. -/
inductive GoPanic where
  | indexOutOfRange
  | sliceOutOfRange
  | typeAssertion
  deriving DecidableEq, Repr

/-- Go expression `xs[i]` on a slice: panics when `i` is out of range. -/
def goIndex {α : Type} (xs : List α) (i : Nat) : Except GoPanic α :=
  match xs.get? i with
  | some x => Except.ok x
  | none => Except.error GoPanic.indexOutOfRange

/-- Go expression `b[i:]` on a byte slice (capacity = length, as for a slice
that ends at the end of the capture buffer): panics when `i > len(b)`. -/
def goSliceFrom (b : List Nat) (i : Nat) : Except GoPanic (List Nat) :=
  if i ≤ b.length then Except.ok (b.drop i) else Except.error GoPanic.sliceOutOfRange

/-- Model time instants (`time.Time`) and durations as integers. -/
abbrev GoTime := Int

/-- One entry of the question section of a `layers.DNS` message. `Typ` stands
for the Go field `Type` (a Lean keyword). -/
structure DNSQuestion where
  Name : String
  Typ : Nat
  deriving DecidableEq, Repr

/-- One resource record of a `layers.DNS` message; only the fields `RrString`
and `initLogEntry` read are modelled. `IP` holds the textual form produced by
`net.IP.String()`; `MX_Name`, `SOA_RName`, `SRV_Name` are the `rr.MX.Name`,
`rr.SOA.RName`, `rr.SRV.Name` sub-fields; `Typ` stands for the Go field
`Type` (a Lean keyword). -/
structure DNSResourceRecord where
  Typ : Nat
  IP : String
  CNAME : String
  NS : String
  PTR : String
  TXT : String
  MX_Name : String
  SOA_RName : String
  SRV_Name : String
  Data : String
  TTL : Nat
  deriving DecidableEq, Repr

/-- The fields of a parsed `layers.DNS` message that the program reads. -/
structure DNSMsg where
  ID : Nat
  QR : Bool
  OpCode : Nat
  ResponseCode : Nat
  Questions : List DNSQuestion
  Answers : List DNSResourceRecord
  deriving DecidableEq, Repr

/-- `layers.DNSOpCodeQuery` is the numeric opcode 0. -/
def DNSOpCodeQuery : Nat := 0

/-- The numeric values of the `layers.DNSType` constants the switch in
`TypeString`/`RrString` names (RFC 1035 type codes, as in gopacket). -/
def DNSTypeA : Nat := 1
def DNSTypeNS : Nat := 2
def DNSTypeCNAME : Nat := 5
def DNSTypeSOA : Nat := 6
def DNSTypePTR : Nat := 12
def DNSTypeMX : Nat := 15
def DNSTypeTXT : Nat := 16
def DNSTypeAAAA : Nat := 28
def DNSTypeSRV : Nat := 33

/-- `TypeString` from src/main.go: names the common DNS types, renders 255 as
"ANY", and falls back to `strconv.Itoa` (decimal numeral) for everything
else. -/
def TypeString (dnsType : Nat) : String :=
  if dnsType = DNSTypeA then "A"
  else if dnsType = DNSTypeAAAA then "AAAA"
  else if dnsType = DNSTypeCNAME then "CNAME"
  else if dnsType = DNSTypeMX then "MX"
  else if dnsType = DNSTypeNS then "NS"
  else if dnsType = DNSTypePTR then "PTR"
  else if dnsType = DNSTypeTXT then "TXT"
  else if dnsType = DNSTypeSOA then "SOA"
  else if dnsType = DNSTypeSRV then "SRV"
  else if dnsType = 255 then "ANY"
  else Nat.repr dnsType

/-- `RrString` from src/main.go: renders a resource record's value according
to its type, falling back to the raw byte payload (`string(rr.Data)`) for
unrecognized types. -/
def RrString (rr : DNSResourceRecord) : String :=
  if rr.Typ = DNSTypeA then rr.IP
  else if rr.Typ = DNSTypeAAAA then rr.IP
  else if rr.Typ = DNSTypeCNAME then rr.CNAME
  else if rr.Typ = DNSTypeMX then rr.MX_Name
  else if rr.Typ = DNSTypeNS then rr.NS
  else if rr.Typ = DNSTypePTR then rr.PTR
  else if rr.Typ = DNSTypeTXT then rr.TXT
  else if rr.Typ = DNSTypeSOA then rr.SOA_RName
  else if rr.Typ = DNSTypeSRV then rr.SRV_Name
  else rr.Data

/-- The numeric type codes `TypeString` and `RrString` handle specially. -/
def namedDnsTypes : List Nat :=
  [DNSTypeA, DNSTypeNS, DNSTypeCNAME, DNSTypeSOA, DNSTypePTR, DNSTypeMX,
   DNSTypeTXT, DNSTypeAAAA, DNSTypeSRV, 255]

/-- Modelled from the library: `layers.DNSResponseCode.String()` of gopacket,
the human-readable name of a DNS response status code (default "Unknown"). -/
def dnsResponseCodeString (rc : Nat) : String :=
  if rc = 0 then "No Error"
  else if rc = 1 then "Format Error"
  else if rc = 2 then "Server Failure"
  else if rc = 3 then "Non-Existent Domain"
  else if rc = 4 then "Not Implemented"
  else if rc = 5 then "Query Refused"
  else if rc = 6 then "Name Exists when it should not"
  else if rc = 7 then "RR Set Exists when it should not"
  else if rc = 8 then "RR Set that should exist does not"
  else if rc = 9 then "Server Not Authoritative for zone"
  else if rc = 10 then "Name not contained in zone"
  else "Unknown"

/-- The struct `dnsLogEntry` from src/main.go (the serialization cache fields
`encoded`/`err` are not part of the built record). `Server`/`Client` are
`net.IP` values, possibly nil. -/
structure dnsLogEntry where
  Query_ID : Nat
  Response_Code : Nat
  Question : String
  Question_Type : String
  Answer : String
  Answer_Type : String
  TTL : Nat
  Server : Option String
  Client : Option String
  Timestamp : String
  deriving DecidableEq, Repr

/-- The struct `dnsMapEntry` from src/main.go: a pending query and its
insertion time. -/
structure dnsMapEntry where
  entry : DNSMsg
  inserted : GoTime
  deriving DecidableEq, Repr

/-- The conntable `map[uint16]dnsMapEntry`, as an association list. -/
abbrev Conntable := List (Nat × dnsMapEntry)

/-- Go map read `conntable[k]` (the `item, found := conntable[k]` form). -/
def lookupTable (t : Conntable) (k : Nat) : Option dnsMapEntry :=
  match t with
  | [] => none
  | (k0, v0) :: rest => if k0 = k then some v0 else lookupTable rest k

/-- Go map write `conntable[k] = v`: overwrites any entry at key `k`. -/
def insertTable (t : Conntable) (k : Nat) (v : dnsMapEntry) : Conntable :=
  (k, v) :: t.filter (fun p => p.1 ≠ k)

/-- Go `delete(conntable, k)`. -/
def deleteTable (t : Conntable) (k : Nat) : Conntable :=
  t.filter (fun p => p.1 ≠ k)

/-- One sweep of `cleanDnsCache` from src/main.go: with `cutoff = now + maxAge`
(`maxAge` is negative), delete every entry whose insertion time is before the
cutoff. The Go `for key, item := range` + `delete` loop over a map is the
filter keeping the entries not deleted. -/
def cleanDnsCacheSweep (t : Conntable) (now : GoTime) (maxAge : GoTime) : Conntable :=
  t.filter (fun p => ¬ p.2.inserted < now + maxAge)

/-- The non-success branch of `initLogEntry` builds this single record from
the stored question and the reply (`ts` stands for the
`time.Now().UTC().Format(time.RFC3339)` build-time timestamp). -/
def failureLogEntry (srcIP dstIP : Option String) (ts : String)
    (q : DNSQuestion) (reply : DNSMsg) : dnsLogEntry :=
  { Query_ID := reply.ID
    Response_Code := reply.ResponseCode
    Question := q.Name
    Question_Type := TypeString q.Typ
    Answer := dnsResponseCodeString reply.ResponseCode
    Answer_Type := ""
    TTL := 0
    Server := srcIP
    Client := dstIP
    Timestamp := ts }

/-- The success branch of `initLogEntry` builds this record for one answer
resource record. -/
def successLogEntry (srcIP dstIP : Option String) (ts : String)
    (q : DNSQuestion) (reply : DNSMsg) (answer : DNSResourceRecord) : dnsLogEntry :=
  { Query_ID := reply.ID
    Response_Code := reply.ResponseCode
    Question := q.Name
    Question_Type := TypeString q.Typ
    Answer := RrString answer
    Answer_Type := TypeString answer.Typ
    TTL := answer.TTL
    Server := srcIP
    Client := dstIP
    Timestamp := ts }

/-- The `for _, answer := range reply.Answers` loop of `initLogEntry`: each
iteration reads `question.Questions[0]` (a panic when the question section is
empty) and appends one record. -/
def successLogEntries (srcIP dstIP : Option String) (ts : String)
    (questions : List DNSQuestion) (reply : DNSMsg) :
    List DNSResourceRecord → Except GoPanic (List dnsLogEntry)
  | [] => Except.ok []
  | answer :: rest => do
    let q ← goIndex questions 0
    let es ← successLogEntries srcIP dstIP ts questions reply rest
    Except.ok (successLogEntry srcIP dstIP ts q reply answer :: es)

/-- `initLogEntry` from src/main.go: a response code other than 0 yields one
failure record; response code 0 yields one record per answer resource record.
Both branches read `question.Questions[0]`, modelled as a fallible index.
The per-record `time.Now()` timestamp is modelled by the single build-time
parameter `ts`. -/
def initLogEntry (srcIP dstIP : Option String) (ts : String)
    (question reply : DNSMsg) : Except GoPanic (List dnsLogEntry) :=
  if reply.ResponseCode ≠ 0 then do
    let q ← goIndex question.Questions 0
    Except.ok [failureLogEntry srcIP dstIP ts q reply]
  else
    successLogEntries srcIP dstIP ts question.Questions reply reply.Answers

/-- The per-DNS-message body of the `handlePacket` loop from src/main.go:
skip non-Query opcodes; a response with a pending query emits the records of
`initLogEntry` and deletes the entry; a response without one is dropped; a
query is stored (overwriting any entry with the same ID). `now` models
`time.Now()` at insertion, `ts` the record build time. -/
def handleDnsMessage (srcIP dstIP : Option String) (ts : String) (now : GoTime)
    (table : Conntable) (dns : DNSMsg) : Except GoPanic (Conntable × List dnsLogEntry) :=
  if dns.OpCode ≠ DNSOpCodeQuery then Except.ok (table, [])
  else
    match lookupTable table dns.ID with
    | some item =>
      if dns.QR then do
        let entries ← initLogEntry srcIP dstIP ts item.entry dns
        Except.ok (deleteTable table item.entry.ID, entries)
      else
        Except.ok (insertTable table dns.ID ⟨dns, now⟩, [])
    | none =>
      if dns.QR then Except.ok (table, [])
      else Except.ok (insertTable table dns.ID ⟨dns, now⟩, [])

/-- A decoded gopacket packet, reduced to the observations src/main.go makes
of it: presence of IPv4/IPv6 network layers with their source/destination
addresses (textual form), presence of a UDP layer together with the result of
`packet.Layer(LayerTypeDNS)`, and presence of a TCP layer together with the
`LayerContents()` of the first layer whose type prints as "Payload". -/
structure Packet where
  ipv4 : Option (String × String)
  ipv6 : Option (String × String)
  hasUDP : Bool
  udpDnsLayer : Option DNSMsg
  hasTCP : Bool
  tcpPayload : Option (List Nat)
  deriving DecidableEq, Repr

/-- `getIpaddrs` from src/main.go: source and destination of the IPv4 layer,
else of the IPv6 layer, else nil/nil for a non-IP packet. -/
def getIpaddrs (p : Packet) : Option String × Option String :=
  match p.ipv4 with
  | some (s, d) => (some s, some d)
  | none =>
    match p.ipv6 with
    | some (s, d) => (some s, some d)
    | none => (none, none)

/-- Modelled from the library: `gopacket.NewPacket(bytes, LayerTypeDNS,
Default)` never returns nil; its first layer is either a decoded DNS layer or
a DecodeFailure layer when the bytes do not parse as DNS. -/
inductive DnsParseResult where
  | dns (d : DNSMsg)
  | decodeFailure
  deriving DecidableEq, Repr

/-- `getDnsLayer` from src/main.go. `parse` is the DNS wire decoder of the
library (the behaviour of `gopacket.NewPacket(·, LayerTypeDNS, Default)`).
UDP: return the packet's DNS layer, or nothing. TCP: take the first Payload
layer's contents, skip the 2-octet length prefix with `[2:]` (a panic when
the payload is shorter than 2 bytes), re-parse the rest, and return
`dnsP.Layers()[0].(*layers.DNS)` — an unchecked type assertion that panics
when the bytes did not decode as DNS (the `dnsP != nil` guard in the source
never fails). Anything else: nothing. -/
def getDnsLayer (parse : List Nat → DnsParseResult) (p : Packet) :
    Except GoPanic (Option DNSMsg) :=
  if p.hasUDP then Except.ok p.udpDnsLayer
  else if p.hasTCP then
    match p.tcpPayload with
    | some contents => do
      let rest ← goSliceFrom contents 2
      match parse rest with
      | DnsParseResult.dns d => Except.ok (some d)
      | DnsParseResult.decodeFailure => Except.error GoPanic.typeAssertion
    | none => Except.ok none
  else Except.ok none

/-- One iteration of the `for packet := range packets` loop of `handlePacket`
from src/main.go: extract addresses and the DNS layer, skip a packet with no
DNS, otherwise run the per-message correlation step. -/
def handlePacketStep (parse : List Nat → DnsParseResult) (p : Packet)
    (ts : String) (now : GoTime) (table : Conntable) :
    Except GoPanic (Conntable × List dnsLogEntry) := do
  let (srcIP, dstIP) := getIpaddrs p
  match ← getDnsLayer parse p with
  | none => Except.ok (table, [])
  | some dns => handleDnsMessage srcIP dstIP ts now table dns

/-- The FNV-1a offset basis, as in gopacket's flow hashing. -/
def fnvBasis : Nat := 14695981039346656037

/-- The FNV-1a prime, as in gopacket's flow hashing. -/
def fnvPrime : Nat := 1099511628211

/-- Modelled from the library: gopacket's `fnvHash` over the raw bytes of one
flow endpoint, 64-bit FNV-1a. -/
def fnvHash (s : List Nat) : Nat :=
  s.foldl (fun h b => ((h ^^^ b) * fnvPrime) % 2 ^ 64) fnvBasis

/-- Modelled from the library: `gopacket.Flow.FastHash()` — the sum of the
per-endpoint FNV hashes (commutative by design), mixed with the endpoint
type and multiplied by the FNV prime, all in 64 bits. -/
def flowFastHash (typ : Nat) (src dst : List Nat) : Nat :=
  ((((fnvHash src + fnvHash dst) % 2 ^ 64) ^^^ typ) * fnvPrime) % 2 ^ 64

/-- The dispatch expression of `doCapture` from src/main.go:
`channels[int(net.NetworkFlow().FastHash()) & 0x7]` — the shard index of a
packet's network flow among the 8 worker channels. -/
def shardOf (typ : Nat) (src dst : List Nat) : Nat :=
  flowFastHash typ src dst &&& 0x7

/-- A conntable whose keys are pairwise distinct (every table reachable from
the empty map through `insertTable`/`deleteTable`/sweeps is such, as every Go
map is). -/
def NoDupKeys (t : Conntable) : Prop :=
  t.Pairwise (fun a b => a.1 ≠ b.1)

theorem lookupTable_insertTable_self (t : Conntable) (k : Nat) (v : dnsMapEntry) :
    lookupTable (insertTable t k v) k = some v := by
  simp [insertTable, lookupTable]

theorem lookupTable_eq_none (t : Conntable) (k : Nat)
    (h : ∀ p ∈ t, p.1 ≠ k) : lookupTable t k = none := by
  induction t with
  | nil => rfl
  | cons p rest ih =>
    obtain ⟨k0, v0⟩ := p
    have hk0 : k0 ≠ k := h (k0, v0) (List.mem_cons_self _ _)
    simp [lookupTable, hk0]
    exact ih (fun q hq => h q (List.mem_cons_of_mem _ hq))

theorem lookupTable_deleteTable_self (t : Conntable) (k : Nat) :
    lookupTable (deleteTable t k) k = none := by
  apply lookupTable_eq_none
  intro p hp
  have := List.of_mem_filter hp
  simpa using this

theorem lookupTable_filter (t : Conntable) (k : Nat) (f : Nat × dnsMapEntry → Bool)
    (h : NoDupKeys t) :
    lookupTable (t.filter f) k =
      (lookupTable t k).bind (fun e => if f (k, e) then some e else none) := by
  induction t with
  | nil => rfl
  | cons p rest ih =>
    obtain ⟨k0, v0⟩ := p
    have hnd : NoDupKeys rest := (List.pairwise_cons.mp h).2
    have hk0 : ∀ q ∈ rest, q.1 ≠ k0 :=
      fun q hq => fun he => ((List.pairwise_cons.mp h).1 q hq) he.symm
    by_cases hk : k0 = k
    · subst hk
      by_cases hf : f (k0, v0)
      · simp [List.filter, hf, lookupTable]
      · have hrest : ∀ q ∈ rest.filter f, q.1 ≠ k0 := by
          intro q hq
          exact hk0 q (List.mem_of_mem_filter hq)
        simp [List.filter, hf, lookupTable, lookupTable_eq_none _ _ hrest]
    · by_cases hf : f (k0, v0)
      · simp [List.filter, hf, lookupTable, hk, ih hnd]
      · simp [List.filter, hf, lookupTable, hk, ih hnd]

theorem successLogEntries_eq_map (srcIP dstIP : Option String) (ts : String)
    (q0 : DNSQuestion) (qs : List DNSQuestion) (reply : DNSMsg)
    (answers : List DNSResourceRecord) :
    successLogEntries srcIP dstIP ts (q0 :: qs) reply answers =
      Except.ok (answers.map (successLogEntry srcIP dstIP ts q0 reply)) := by
  induction answers with
  | nil => rfl
  | cons a rest ih =>
    simp [successLogEntries, goIndex, ih]
    rfl

/-- C6: `TypeString` maps A, AAAA, CNAME, MX, NS, PTR, TXT, SOA, SRV to those
names and 255 to "ANY", and every other numeric type to its decimal numeral;
`RrString` renders A/AAAA as the IP's textual form, CNAME/NS/PTR/TXT as the
embedded name or text, MX/SOA/SRV as only the referenced name, and every
unrecognized type as its raw byte payload as text. -/
theorem typeString_rrString_spec :
    TypeString DNSTypeA = "A" ∧ TypeString DNSTypeAAAA = "AAAA" ∧
    TypeString DNSTypeCNAME = "CNAME" ∧ TypeString DNSTypeMX = "MX" ∧
    TypeString DNSTypeNS = "NS" ∧ TypeString DNSTypePTR = "PTR" ∧
    TypeString DNSTypeTXT = "TXT" ∧ TypeString DNSTypeSOA = "SOA" ∧
    TypeString DNSTypeSRV = "SRV" ∧ TypeString 255 = "ANY" ∧
    (∀ t : Nat, t ∉ namedDnsTypes → TypeString t = Nat.repr t) ∧
    (∀ rr : DNSResourceRecord,
      (rr.Typ = DNSTypeA → RrString rr = rr.IP) ∧
      (rr.Typ = DNSTypeAAAA → RrString rr = rr.IP) ∧
      (rr.Typ = DNSTypeCNAME → RrString rr = rr.CNAME) ∧
      (rr.Typ = DNSTypeNS → RrString rr = rr.NS) ∧
      (rr.Typ = DNSTypePTR → RrString rr = rr.PTR) ∧
      (rr.Typ = DNSTypeTXT → RrString rr = rr.TXT) ∧
      (rr.Typ = DNSTypeMX → RrString rr = rr.MX_Name) ∧
      (rr.Typ = DNSTypeSOA → RrString rr = rr.SOA_RName) ∧
      (rr.Typ = DNSTypeSRV → RrString rr = rr.SRV_Name) ∧
      (rr.Typ ∉ namedDnsTypes → RrString rr = rr.Data)) := by
  refine ⟨rfl, rfl, rfl, rfl, rfl, rfl, rfl, rfl, rfl, rfl, ?_, ?_⟩
  · intro t ht
    simp [namedDnsTypes, DNSTypeA, DNSTypeNS, DNSTypeCNAME, DNSTypeSOA,
      DNSTypePTR, DNSTypeMX, DNSTypeTXT, DNSTypeAAAA, DNSTypeSRV] at ht
    obtain ⟨h1, h2, h3, h4, h5, h6, h7, h8, h9, h10⟩ := ht
    simp [TypeString, DNSTypeA, DNSTypeNS, DNSTypeCNAME, DNSTypeSOA,
      DNSTypePTR, DNSTypeMX, DNSTypeTXT, DNSTypeAAAA, DNSTypeSRV,
      h1, h2, h3, h4, h5, h6, h7, h8, h9, h10]
  · intro rr
    refine ⟨?_, ?_, ?_, ?_, ?_, ?_, ?_, ?_, ?_, ?_⟩ <;> intro h
    · simp [RrString, h, DNSTypeA]
    · simp [RrString, h, DNSTypeA, DNSTypeAAAA]
    · simp [RrString, h, DNSTypeA, DNSTypeAAAA, DNSTypeCNAME]
    · simp [RrString, h, DNSTypeA, DNSTypeAAAA, DNSTypeCNAME, DNSTypeMX,
        DNSTypeNS]
    · simp [RrString, h, DNSTypeA, DNSTypeAAAA, DNSTypeCNAME, DNSTypeMX,
        DNSTypeNS, DNSTypePTR]
    · simp [RrString, h, DNSTypeA, DNSTypeAAAA, DNSTypeCNAME, DNSTypeMX,
        DNSTypeNS, DNSTypePTR, DNSTypeTXT]
    · simp [RrString, h, DNSTypeA, DNSTypeAAAA, DNSTypeCNAME, DNSTypeMX]
    · simp [RrString, h, DNSTypeA, DNSTypeAAAA, DNSTypeCNAME, DNSTypeMX,
        DNSTypeNS, DNSTypePTR, DNSTypeTXT, DNSTypeSOA]
    · simp [RrString, h, DNSTypeA, DNSTypeAAAA, DNSTypeCNAME, DNSTypeMX,
        DNSTypeNS, DNSTypePTR, DNSTypeTXT, DNSTypeSOA, DNSTypeSRV]
    · simp [namedDnsTypes, DNSTypeA, DNSTypeNS, DNSTypeCNAME, DNSTypeSOA,
        DNSTypePTR, DNSTypeMX, DNSTypeTXT, DNSTypeAAAA, DNSTypeSRV] at h
      obtain ⟨h1, h2, h3, h4, h5, h6, h7, h8, h9, h10⟩ := h
      simp [RrString, DNSTypeA, DNSTypeNS, DNSTypeCNAME, DNSTypeSOA,
        DNSTypePTR, DNSTypeMX, DNSTypeTXT, DNSTypeAAAA, DNSTypeSRV,
        h1, h2, h3, h4, h5, h6, h7, h8, h9, h10]

/-- Witness for `typeString_rrString_spec`: the fallback branches at the
concrete unrecognized type 99. -/
theorem typeString_rrString_spec_witness :
    TypeString 99 = Nat.repr 99 ∧
    RrString ⟨99, "ip", "cn", "ns", "ptr", "txt", "mx", "soa", "srv", "raw", 0⟩ = "raw" := by
  obtain ⟨-, -, -, -, -, -, -, -, -, -, hfall, hrr⟩ := typeString_rrString_spec
  refine ⟨hfall 99 (by decide), ?_⟩
  exact (hrr ⟨99, "ip", "cn", "ns", "ptr", "txt", "mx", "soa", "srv", "raw", 0⟩).2.2.2.2.2.2.2.2.2 (by decide)

/-- C8: shard assignment is a pure function of the flow (it is literally the
dispatch expression `FastHash() & 0x7`), it is symmetric in direction, and
every packet with a recognized network layer lands on one of the 8 workers,
so a query and its matching response reach the same correlator. -/
theorem shard_symmetric_and_bounded (typ : Nat) (src dst : List Nat) :
    shardOf typ src dst = flowFastHash typ src dst &&& 0x7 ∧
    shardOf typ src dst = shardOf typ dst src ∧
    shardOf typ src dst < 8 := by
  refine ⟨rfl, ?_, ?_⟩
  · unfold shardOf flowFastHash
    rw [Nat.add_comm (fnvHash src) (fnvHash dst)]
  · exact Nat.lt_succ_of_le (Nat.and_le_right)

/-- C7: a response message (QR set) whose transaction ID has no entry in the
shard's conntable is discarded: no records, table unchanged, no panic. -/
theorem response_without_query_noop (srcIP dstIP : Option String) (ts : String)
    (now : GoTime) (table : Conntable) (dns : DNSMsg)
    (hqr : dns.QR = true) (hmiss : lookupTable table dns.ID = none) :
    handleDnsMessage srcIP dstIP ts now table dns = Except.ok (table, []) := by
  unfold handleDnsMessage
  by_cases hop : dns.OpCode ≠ DNSOpCodeQuery
  · simp [hop]
  · simp [hop, hmiss, hqr]

/-- Witness for `response_without_query_noop`: a concrete unmatched response
on an empty table. -/
theorem response_without_query_noop_witness :
    handleDnsMessage (some "198.51.100.1") (some "203.0.113.9") "2016-01-01T00:00:00Z" 5
      [] ⟨9, true, 0, 3, [⟨"example.com", 1⟩], []⟩ = Except.ok ([], []) :=
  response_without_query_noop (some "198.51.100.1") (some "203.0.113.9")
    "2016-01-01T00:00:00Z" 5 [] ⟨9, true, 0, 3, [⟨"example.com", 1⟩], []⟩ rfl rfl

/-- C9: a packet that yields no DNS message, and a DNS message whose opcode is
not standard Query, leave the shard's state untouched: table unchanged, no
records, no error. -/
theorem non_dns_or_non_query_noop (parse : List Nat → DnsParseResult)
    (p : Packet) (ts : String) (now : GoTime) (table : Conntable)
    (h : getDnsLayer parse p = Except.ok none ∨
      ∃ d, getDnsLayer parse p = Except.ok (some d) ∧ d.OpCode ≠ DNSOpCodeQuery) :
    handlePacketStep parse p ts now table = Except.ok (table, []) := by
  rcases h with hnone | ⟨d, hd, hop⟩
  · simp [handlePacketStep, hnone, bind, Except.bind]
  · simp [handlePacketStep, hd, bind, Except.bind, handleDnsMessage, hop]

/-- Witness for `non_dns_or_non_query_noop`: a UDP packet with no DNS layer. -/
theorem non_dns_or_non_query_noop_witness :
    handlePacketStep (fun _ => DnsParseResult.decodeFailure)
      ⟨some ("198.51.100.1", "203.0.113.9"), none, true, none, false, none⟩
      "2016-01-01T00:00:00Z" 5 [] = Except.ok ([], []) :=
  non_dns_or_non_query_noop (fun _ => DnsParseResult.decodeFailure)
    ⟨some ("198.51.100.1", "203.0.113.9"), none, true, none, false, none⟩
    "2016-01-01T00:00:00Z" 5 [] (Or.inl rfl)

/-- C4: a matched pair whose response status code is not success yields
exactly one record; its answer is the human-readable name of the status code,
its answer type is empty and its TTL is 0 (the stored query's question
section being non-empty, the precondition the index access needs). -/
theorem initLogEntry_failure_single_record (srcIP dstIP : Option String)
    (ts : String) (question reply : DNSMsg) (q0 : DNSQuestion) (qs : List DNSQuestion)
    (hrc : reply.ResponseCode ≠ 0) (hq : question.Questions = q0 :: qs) :
    ∃ e : dnsLogEntry,
      initLogEntry srcIP dstIP ts question reply = Except.ok [e] ∧
      e.Answer = dnsResponseCodeString reply.ResponseCode ∧
      e.Answer_Type = "" ∧ e.TTL = 0 ∧
      e.Question = q0.Name ∧ e.Question_Type = TypeString q0.Typ ∧
      e.Query_ID = reply.ID ∧ e.Response_Code = reply.ResponseCode ∧
      e.Server = srcIP ∧ e.Client = dstIP := by
  refine ⟨failureLogEntry srcIP dstIP ts q0 reply, ?_, rfl, rfl, rfl, rfl, rfl, rfl, rfl, rfl, rfl⟩
  simp [initLogEntry, hrc, hq, goIndex, bind, Except.bind]

/-- Witness for `initLogEntry_failure_single_record`: a concrete NXDomain
response. -/
theorem initLogEntry_failure_single_record_witness :
    ∃ e : dnsLogEntry,
      initLogEntry (some "198.51.100.1") (some "203.0.113.9") "2016-01-01T00:00:00Z"
        ⟨4660, false, 0, 0, [⟨"example.com", 1⟩], []⟩
        ⟨4660, true, 0, 3, [⟨"example.com", 1⟩], []⟩ = Except.ok [e] ∧
      e.Answer = dnsResponseCodeString 3 ∧
      e.Answer_Type = "" ∧ e.TTL = 0 ∧
      e.Question = "example.com" ∧ e.Question_Type = TypeString 1 ∧
      e.Query_ID = 4660 ∧ e.Response_Code = 3 ∧
      e.Server = some "198.51.100.1" ∧ e.Client = some "203.0.113.9" :=
  initLogEntry_failure_single_record (some "198.51.100.1") (some "203.0.113.9")
    "2016-01-01T00:00:00Z" ⟨4660, false, 0, 0, [⟨"example.com", 1⟩], []⟩
    ⟨4660, true, 0, 3, [⟨"example.com", 1⟩], []⟩ ⟨"example.com", 1⟩ []
    (by decide) rfl

/-- C5: a matched pair whose response status code is success and carries k
answer records yields exactly k records — one per answer, in order — each
sharing the question name, question type, status code, server and client, and
each carrying that answer's own stringified value, type string and TTL (the
stored query's question section being non-empty). -/
theorem initLogEntry_success_per_answer (srcIP dstIP : Option String)
    (ts : String) (question reply : DNSMsg) (q0 : DNSQuestion) (qs : List DNSQuestion)
    (hrc : reply.ResponseCode = 0) (hq : question.Questions = q0 :: qs) :
    initLogEntry srcIP dstIP ts question reply =
      Except.ok (reply.Answers.map (successLogEntry srcIP dstIP ts q0 reply)) ∧
    (reply.Answers.map (successLogEntry srcIP dstIP ts q0 reply)).length =
      reply.Answers.length ∧
    (∀ answer : DNSResourceRecord,
      (successLogEntry srcIP dstIP ts q0 reply answer).Question = q0.Name ∧
      (successLogEntry srcIP dstIP ts q0 reply answer).Question_Type = TypeString q0.Typ ∧
      (successLogEntry srcIP dstIP ts q0 reply answer).Query_ID = reply.ID ∧
      (successLogEntry srcIP dstIP ts q0 reply answer).Response_Code = reply.ResponseCode ∧
      (successLogEntry srcIP dstIP ts q0 reply answer).Server = srcIP ∧
      (successLogEntry srcIP dstIP ts q0 reply answer).Client = dstIP ∧
      (successLogEntry srcIP dstIP ts q0 reply answer).Answer = RrString answer ∧
      (successLogEntry srcIP dstIP ts q0 reply answer).Answer_Type = TypeString answer.Typ ∧
      (successLogEntry srcIP dstIP ts q0 reply answer).TTL = answer.TTL) := by
  refine ⟨?_, List.length_map _ _, fun answer => ⟨rfl, rfl, rfl, rfl, rfl, rfl, rfl, rfl, rfl⟩⟩
  simp [initLogEntry, hrc, hq, successLogEntries_eq_map]

/-- Witness for `initLogEntry_success_per_answer`: a concrete success
response with one A record. -/
theorem initLogEntry_success_per_answer_witness :
    initLogEntry (some "198.51.100.1") (some "203.0.113.9") "2016-01-01T00:00:00Z"
      ⟨4660, false, 0, 0, [⟨"example.com", 1⟩], []⟩
      ⟨4660, true, 0, 0, [⟨"example.com", 1⟩],
        [⟨1, "93.184.216.34", "", "", "", "", "", "", "", "", 3600⟩]⟩ =
      Except.ok (([⟨1, "93.184.216.34", "", "", "", "", "", "", "", "", 3600⟩] :
        List DNSResourceRecord).map
          (successLogEntry (some "198.51.100.1") (some "203.0.113.9")
            "2016-01-01T00:00:00Z" ⟨"example.com", 1⟩
            ⟨4660, true, 0, 0, [⟨"example.com", 1⟩],
              [⟨1, "93.184.216.34", "", "", "", "", "", "", "", "", 3600⟩]⟩)) :=
  (initLogEntry_success_per_answer (some "198.51.100.1") (some "203.0.113.9")
    "2016-01-01T00:00:00Z" ⟨4660, false, 0, 0, [⟨"example.com", 1⟩], []⟩
    ⟨4660, true, 0, 0, [⟨"example.com", 1⟩],
      [⟨1, "93.184.216.34", "", "", "", "", "", "", "", "", 3600⟩]⟩
    ⟨"example.com", 1⟩ [] rfl rfl).1

/-- C10 counterexample: record building does NOT unconditionally read
`question.Questions[0]` — a success reply with zero answer records never
evaluates the index, so building succeeds even though the stored query's
question section is empty (refuting "safe only under the precondition that
the question section is non-empty"). -/
theorem initLogEntry_empty_question_safe_cex :
    initLogEntry (some "198.51.100.1") (some "203.0.113.9") "2016-01-01T00:00:00Z"
      ⟨4660, false, 0, 0, [], []⟩ ⟨4660, true, 0, 0, [], []⟩ = Except.ok [] := rfl

/-- C10 (amended): record building reads `question.Questions[0]` in the
non-success branch and once per answer record in the success branch; with an
empty question section it panics exactly when the reply is non-success or has
at least one answer, and a non-empty question section makes every access
safe. -/
theorem initLogEntry_question_index_safety (srcIP dstIP : Option String)
    (ts : String) (question reply : DNSMsg) :
    (question.Questions = [] → reply.ResponseCode ≠ 0 →
      initLogEntry srcIP dstIP ts question reply = Except.error GoPanic.indexOutOfRange) ∧
    (question.Questions = [] → reply.ResponseCode = 0 → reply.Answers ≠ [] →
      initLogEntry srcIP dstIP ts question reply = Except.error GoPanic.indexOutOfRange) ∧
    (question.Questions ≠ [] →
      ∃ l, initLogEntry srcIP dstIP ts question reply = Except.ok l) := by
  refine ⟨?_, ?_, ?_⟩
  · intro hq hrc
    simp [initLogEntry, hrc, hq, goIndex, bind, Except.bind]
  · intro hq hrc hans
    match hA : reply.Answers with
    | [] => exact absurd hA hans
    | a :: rest =>
      simp [initLogEntry, hrc, hq, hA, successLogEntries, goIndex, bind, Except.bind]
  · intro hq
    match hQ : question.Questions with
    | [] => exact absurd hQ hq
    | q0 :: qs =>
      by_cases hrc : reply.ResponseCode = 0
      · exact ⟨reply.Answers.map (successLogEntry srcIP dstIP ts q0 reply),
          by simp [initLogEntry, hrc, hQ, successLogEntries_eq_map]⟩
      · exact ⟨[failureLogEntry srcIP dstIP ts q0 reply],
          by simp [initLogEntry, hrc, hQ, goIndex, bind, Except.bind]⟩

/-- Witness for `initLogEntry_question_index_safety`: an empty question
section panics under a concrete NXDomain reply. -/
theorem initLogEntry_question_index_safety_witness :
    initLogEntry (some "198.51.100.1") (some "203.0.113.9") "2016-01-01T00:00:00Z"
      ⟨4660, false, 0, 0, [], []⟩ ⟨4660, true, 0, 3, [], []⟩ =
      Except.error GoPanic.indexOutOfRange :=
  (initLogEntry_question_index_safety (some "198.51.100.1") (some "203.0.113.9")
    "2016-01-01T00:00:00Z" ⟨4660, false, 0, 0, [], []⟩
    ⟨4660, true, 0, 3, [], []⟩).1 rfl (by decide)

/-- C1: the conntable keeps at most one pending query per transaction ID: a
query stores itself whatever the table held, a second query with the same ID
overwrites the first, the lookup then returns only the second, and a late
response to the ID is matched against — and removes — the newer entry, its
records built from the second query. -/
theorem conntable_overwrite_and_late_response (t : Conntable) (q1 q2 r : DNSMsg)
    (s1 d1 s2 d2 s3 d3 : Option String) (ts1 ts2 ts3 : String) (n1 n2 n3 : GoTime)
    (hq1 : q1.QR = false) (hq2 : q2.QR = false) (hr : r.QR = true)
    (ho1 : q1.OpCode = DNSOpCodeQuery) (ho2 : q2.OpCode = DNSOpCodeQuery)
    (hor : r.OpCode = DNSOpCodeQuery)
    (hid2 : q2.ID = q1.ID) (hidr : r.ID = q1.ID) :
    handleDnsMessage s1 d1 ts1 n1 t q1 =
      Except.ok (insertTable t q1.ID ⟨q1, n1⟩, []) ∧
    handleDnsMessage s2 d2 ts2 n2 (insertTable t q1.ID ⟨q1, n1⟩) q2 =
      Except.ok (insertTable (insertTable t q1.ID ⟨q1, n1⟩) q2.ID ⟨q2, n2⟩, []) ∧
    lookupTable (insertTable (insertTable t q1.ID ⟨q1, n1⟩) q2.ID ⟨q2, n2⟩) q1.ID =
      some ⟨q2, n2⟩ ∧
    handleDnsMessage s3 d3 ts3 n3
        (insertTable (insertTable t q1.ID ⟨q1, n1⟩) q2.ID ⟨q2, n2⟩) r =
      (initLogEntry s3 d3 ts3 q2 r).bind (fun es => Except.ok
        (deleteTable (insertTable (insertTable t q1.ID ⟨q1, n1⟩) q2.ID ⟨q2, n2⟩) q2.ID,
         es)) ∧
    lookupTable
      (deleteTable (insertTable (insertTable t q1.ID ⟨q1, n1⟩) q2.ID ⟨q2, n2⟩) q2.ID)
      q1.ID = none := by
  have h3 : lookupTable (insertTable (insertTable t q1.ID ⟨q1, n1⟩) q2.ID ⟨q2, n2⟩)
      q1.ID = some ⟨q2, n2⟩ := by
    rw [← hid2]
    exact lookupTable_insertTable_self _ _ _
  refine ⟨?_, ?_, h3, ?_, ?_⟩
  · cases hlt : lookupTable t q1.ID <;>
      simp [handleDnsMessage, ho1, hq1, hlt, DNSOpCodeQuery]
  · simp [handleDnsMessage, ho2, hq2, hid2, lookupTable_insertTable_self,
      DNSOpCodeQuery]
  · have hℓ : lookupTable (insertTable (insertTable t q1.ID ⟨q1, n1⟩) q2.ID ⟨q2, n2⟩)
        r.ID = some ⟨q2, n2⟩ := by rw [hidr]; exact h3
    simp [handleDnsMessage, hor, hr, hℓ, DNSOpCodeQuery, bind, Except.bind]
  · rw [← hid2]
    exact lookupTable_deleteTable_self _ _

/-- Witness for `conntable_overwrite_and_late_response`: two concrete queries
reusing ID 7 — only the second is matchable afterwards. -/
theorem conntable_overwrite_and_late_response_witness :
    lookupTable (insertTable (insertTable [] 7 ⟨⟨7, false, 0, 0, [⟨"a.example", 1⟩], []⟩, 1⟩)
      7 ⟨⟨7, false, 0, 0, [⟨"b.example", 1⟩], []⟩, 2⟩) 7 =
      some ⟨⟨7, false, 0, 0, [⟨"b.example", 1⟩], []⟩, 2⟩ :=
  (conntable_overwrite_and_late_response []
    ⟨7, false, 0, 0, [⟨"a.example", 1⟩], []⟩
    ⟨7, false, 0, 0, [⟨"b.example", 1⟩], []⟩
    ⟨7, true, 0, 0, [⟨"b.example", 1⟩], []⟩
    (some "s1") (some "d1") (some "s2") (some "d2") (some "s3") (some "d3")
    "t1" "t2" "t3" 1 2 3 rfl rfl rfl rfl rfl rfl rfl rfl).2.2.1

/-- C2 counterexample: a sweep that runs exactly at `T + |maxAge|` does not
remove an entry inserted at `T` (the cutoff comparison is strict), so the
entry is still present at a check time `≥ T + |maxAge|` after a sweep has
run — the claim's consequent fails at the boundary. -/
theorem gc_sweep_boundary_cex :
    lookupTable (cleanDnsCacheSweep
        [(4660, ⟨⟨4660, false, 0, 0, [⟨"example.com", 1⟩], []⟩, 0⟩)] 60 (-60)) 4660 =
      some ⟨⟨4660, false, 0, 0, [⟨"example.com", 1⟩], []⟩, 0⟩ ∧
    (0 : GoTime) + 60 ≤ 60 := by
  constructor
  · decide
  · decide

/-- C2 (amended): each GC sweep removes exactly the entries whose insertion
time is strictly before `cutoff = now + maxAge` and keeps the rest; hence an
entry inserted at time `T` is gone after any sweep that runs at a time
strictly later than `T + |maxAge|` (i.e. `T - maxAge`, `maxAge` being
negative); a sweep at or before that instant need not remove it. -/
theorem cleanDnsCache_sweep_spec (t : Conntable) (now maxAge : GoTime) (k : Nat)
    (hnd : NoDupKeys t) :
    lookupTable (cleanDnsCacheSweep t now maxAge) k =
      (lookupTable t k).bind
        (fun e => if e.inserted < now + maxAge then none else some e) ∧
    (∀ e : dnsMapEntry, lookupTable t k = some e → e.inserted - maxAge < now →
      lookupTable (cleanDnsCacheSweep t now maxAge) k = none) := by
  have hmain : lookupTable (cleanDnsCacheSweep t now maxAge) k =
      (lookupTable t k).bind
        (fun e => if e.inserted < now + maxAge then none else some e) := by
    rw [show cleanDnsCacheSweep t now maxAge =
        t.filter (fun p => ¬ p.2.inserted < now + maxAge) from rfl]
    rw [lookupTable_filter t k _ hnd]
    cases hl : lookupTable t k with
    | none => rfl
    | some e => by_cases h : e.inserted < now + maxAge <;> simp [h]
  refine ⟨hmain, ?_⟩
  intro e he hage
  rw [hmain, he]
  have : e.inserted < now + maxAge := by linarith
  simp [this]

/-- Witness for `cleanDnsCache_sweep_spec`: a sweep one tick past the age
threshold removes the concrete entry. -/
theorem cleanDnsCache_sweep_spec_witness :
    lookupTable (cleanDnsCacheSweep
        [(4660, ⟨⟨4660, false, 0, 0, [⟨"example.com", 1⟩], []⟩, 0⟩)] 61 (-60)) 4660 =
      none :=
  (cleanDnsCache_sweep_spec
    [(4660, ⟨⟨4660, false, 0, 0, [⟨"example.com", 1⟩], []⟩, 0⟩)] 61 (-60) 4660
    (List.pairwise_singleton _ _)).2
    ⟨⟨4660, false, 0, 0, [⟨"example.com", 1⟩], []⟩, 0⟩ rfl (by decide)

/-- C3: the TCP branch of `getDnsLayer` evaluates `LayerContents()[2:]` on
the raw payload; on a TCP packet whose payload is the single byte 0x00 —
shorter than the 2-octet length prefix — that slice is out of range and the
program panics instead of returning nothing. -/
theorem getDnsLayer_short_tcp_payload_panics :
    getDnsLayer (fun _ => DnsParseResult.decodeFailure)
      ⟨some ("198.51.100.1", "203.0.113.9"), none, false, none, true, some [0]⟩ =
      Except.error GoPanic.sliceOutOfRange := rfl
